import Mathlib

/-!
A shallow embedding of the data-model / normalization / serialization layer of
the hand_ocr repository (`src/data_models.py`), together with theorems that
settle the frozen claims about that layer.

Conventions of the embedding:
* Python strings are Lean `String` (lists of `Char`); only character classes
  actually exercised by the code (ASCII digits, ASCII whitespace) matter.
* Python `Decimal` values reachable in this code are always finite numbers, so
  they are modelled as `Rat`; `float(decimal)` conversion is modelled as the
  identity on `Rat` (no claim depends on binary rounding).
* Python `None` / absence is `Option.none`, or the dedicated constructor of a
  value type.
* Pydantic field validation that can fail is `Except Unit`.
-/

namespace HandOCR

/-! ### Basic character and string helpers -/

/-- ASCII whitespace, the characters Python's `str.strip` and the regex class
`\s` treat as space (for the ASCII inputs the claims are about). -/
def isPySpace (c : Char) : Bool :=
  c == ' ' || c == '\t' || c == '\n' || c == '\r' || c == '\x0b' || c == '\x0c'

/-- Strip ASCII whitespace from both ends, like Python `str.strip()`. -/
def pyStrip (s : List Char) : List Char :=
  ((s.dropWhile isPySpace).reverse.dropWhile isPySpace).reverse

/-- Numeric value of a digit string, like Python `int` on a digit string. -/
def natOfDigits (s : List Char) : Nat :=
  s.foldl (fun acc c => acc * 10 + (c.toNat - 48)) 0

/-! ### Python `Decimal` literal parsing

`Decimal(str)` accepts `[sign] (digits [. digits?] | . digits)` (plus exponent
and NaN/Infinity forms).  The strings this program can feed to `Decimal` are
built only from digits, `.` and `-` (the currency cleaning step), so the
embedded grammar below covers exactly the reachable inputs; strings without any
digits (including the NaN/Infinity spellings, which pydantic's decimal field
rejects as non-finite anyway) are rejected. -/

/-- Unsigned decimal coefficient: digit run with at most one `.`, at least one
digit overall. -/
def unsignedDecimal (s : List Char) : Option Rat :=
  match s.splitOn '.' with
  | [ip] =>
    if ip ≠ [] ∧ ip.all Char.isDigit then some (mkRat (natOfDigits ip) 1) else none
  | [ip, fp] =>
    if (ip ≠ [] ∨ fp ≠ []) ∧ ip.all Char.isDigit ∧ fp.all Char.isDigit then
      some (mkRat (natOfDigits (ip ++ fp)) (10 ^ fp.length))
    else none
  | _ => none

/-- `Decimal(s)` on the reachable fragment: optional sign, then a coefficient. -/
def pyDecimal (s : List Char) : Option Rat :=
  match s with
  | '-' :: rest => (unsignedDecimal rest).map (fun q => -q)
  | '+' :: rest => unsignedDecimal rest
  | _ => unsignedDecimal s

/-! ### Raw values and the price validator (`LineItem.parse_price` and its
four textually identical clones `parse_tax_amount`, `parse_amount`,
`parse_amounts`) -/

/-- A raw field value as handed to a pydantic `pre=True` validator: `None`, a
string, or an already-typed decimal number. -/
inductive Raw where
  | rnone : Raw
  | rstr (s : String) : Raw
  | rdec (q : Rat) : Raw
deriving DecidableEq, Repr

/-- `re.sub(r'[^\d.,\-]', '', v)`: keep only digits, `.`, `,`, `-`. -/
def cleanCurrency (v : List Char) : List Char :=
  v.filter (fun c => c.isDigit || c == '.' || c == ',' || c == '-')

/-- `cleaned.replace(',', '')`. -/
def removeCommas (s : List Char) : List Char :=
  s.filter (fun c => c ≠ ',')

/-- `LineItem.parse_price` (= `parse_tax_amount` = `parse_amount` =
`parse_amounts`): `None` passes through; for a string, strip all characters but
digits/`.`/`,`/`-`; if something is left, drop commas and parse as `Decimal`
(parse failure gives `None`); otherwise — cleaned string empty — the original
value is returned unchanged; non-string values pass through. -/
def parse_price (v : Raw) : Raw :=
  match v with
  | .rnone => .rnone
  | .rstr s =>
    let cleaned := cleanCurrency s.data
    if cleaned ≠ [] then
      match pyDecimal (removeCommas cleaned) with
      | some q => .rdec q
      | none => .rnone
    else .rstr s
  | .rdec q => .rdec q

/-- Pydantic's validation of an `Optional[Decimal]` field value, applied after
the `pre` validator: `None` and `Decimal` pass; a string is stripped and fed to
`Decimal`, raising (`Except.error`) if it does not parse as a finite decimal. -/
def decimal_field (v : Raw) : Except Unit (Option Rat) :=
  match v with
  | .rnone => .ok none
  | .rdec q => .ok (some q)
  | .rstr s =>
    match pyDecimal (pyStrip s.data) with
    | some q => .ok (some q)
    | none => .error ()

/-- The full pipeline a `unit_price` / `total_price` / `tax_amount` /
`paid_amount` / `balance_due` / `subtotal` / `total_amount` field value goes
through when an Entity Record is constructed from a mapping. -/
def validate_price_field (v : Raw) : Except Unit (Option Rat) :=
  decimal_field (parse_price v)

/-! ### `DocumentInfo.parse_date`

The three patterns `(\d{1,2})[/ or -](\d{1,2})[/ or -](\d{4})`,
`(\d{4})[/ or -](\d{1,2})[/ or -](\d{1,2})` and `(\d{1,2})[/ or -](\d{1,2})[/ or -](\d{2})`
are embedded as dedicated matchers with the backtracking behaviour of
`re.search`: leftmost starting position first, and within one position a
greedy `\d{1,2}` tries two digits before one. -/

/-- Take exactly `n` digits from the front. -/
def takeDigits : Nat → List Char → Option (List Char × List Char)
  | 0, s => some ([], s)
  | _ + 1, [] => none
  | n + 1, c :: s =>
    if c.isDigit then (takeDigits n s).map (fun p => (c :: p.1, p.2)) else none

/-- Consume one `[/ or -]` separator. -/
def sepChar : List Char → Option (List Char)
  | [] => none
  | c :: s => if c == '/' || c == '-' then some s else none

/-- Greedy `(\d{1,2})` with backtracking into the continuation `k`. -/
def grp12 {α : Type} (s : List Char) (k : List Char → List Char → Option α) :
    Option α :=
  match (takeDigits 2 s).bind (fun p => k p.1 p.2) with
  | some r => some r
  | none => (takeDigits 1 s).bind (fun p => k p.1 p.2)

/-- Match `(\d{1,2})[/ or -](\d{1,2})[/ or -](\d{4})` at the start of `s`. -/
def matchP1At (s : List Char) : Option (String × String × String) :=
  grp12 s fun g1 r => (sepChar r).bind fun r =>
    grp12 r fun g2 r => (sepChar r).bind fun r =>
      (takeDigits 4 r).map fun p => (⟨g1⟩, ⟨g2⟩, ⟨p.1⟩)

/-- Match `(\d{4})[/ or -](\d{1,2})[/ or -](\d{1,2})` at the start of `s`. -/
def matchP2At (s : List Char) : Option (String × String × String) :=
  (takeDigits 4 s).bind fun p => (sepChar p.2).bind fun r =>
    grp12 r fun g2 r => (sepChar r).bind fun r =>
      grp12 r fun g3 _ => some (⟨p.1⟩, ⟨g2⟩, ⟨g3⟩)

/-- Match `(\d{1,2})[/ or -](\d{1,2})[/ or -](\d{2})` at the start of `s`. -/
def matchP3At (s : List Char) : Option (String × String × String) :=
  grp12 s fun g1 r => (sepChar r).bind fun r =>
    grp12 r fun g2 r => (sepChar r).bind fun r =>
      (takeDigits 2 r).map fun p => (⟨g1⟩, ⟨g2⟩, ⟨p.1⟩)

/-- `re.search`: try the matcher at each starting position, leftmost first. -/
def reSearch (m : List Char → Option (String × String × String)) :
    List Char → Option (String × String × String)
  | [] => m []
  | c :: rest =>
    match m (c :: rest) with
    | some g => some g
    | none => reSearch m rest

/-- A Python `datetime.date` value. -/
structure PyDate where
  year : Nat
  month : Nat
  day : Nat
deriving DecidableEq, Repr

/-- Gregorian leap year, as in Python's `calendar`/`datetime`. -/
def isLeap (y : Nat) : Bool :=
  (y % 4 == 0 && y % 100 != 0) || y % 400 == 0

/-- Days in a month, as accepted by `datetime.date`. -/
def daysInMonth (y m : Nat) : Nat :=
  if m == 2 then (if isLeap y then 29 else 28)
  else if m == 4 || m == 6 || m == 9 || m == 11 then 30
  else 31

/-- `datetime.date(y, m, d)` succeeds iff these bounds hold
(`MINYEAR = 1`, `MAXYEAR = 9999`). -/
def dateOk (y m d : Nat) : Bool :=
  1 ≤ y && y ≤ 9999 && 1 ≤ m && m ≤ 12 && 1 ≤ d && d ≤ daysInMonth y m

/-- `datetime.date(y, m, d)`, raising (`none`) on out-of-range components. -/
def mkDate (y m d : Nat) : Option PyDate :=
  if dateOk y m d then some ⟨y, m, d⟩ else none

/-- Numeric value of a matched group (`int(groups[i])`). -/
def groupNat (g : String) : Nat := natOfDigits g.data

/-- The year the code derives from `groups[2]`: a two-character group below 50
maps to 2000+year, otherwise to 1900+year; any other length is taken as-is. -/
def yearOfGroup2 (g : String) : Nat :=
  if g.length == 2 then
    (if groupNat g < 50 then 2000 + groupNat g else 1900 + groupNat g)
  else groupNat g

/-- The date the body of the `for pattern in date_patterns` loop builds from a
match: the first pattern uses `date(year, groups[0], groups[1])`, every other
pattern uses `date(year, groups[1], groups[2])`, with the year always taken
from `groups[2]` via `yearOfGroup2`. `none` models the `ValueError` that the
`except: continue` swallows. -/
def buildDate (isFirstPattern : Bool) (g : String × String × String) :
    Option PyDate :=
  if isFirstPattern then mkDate (yearOfGroup2 g.2.2) (groupNat g.1) (groupNat g.2.1)
  else mkDate (yearOfGroup2 g.2.2) (groupNat g.2.1) (groupNat g.2.2)

/-- One iteration of the pattern loop: search for pattern `i` (0-based) in `v`
and, on a match, try to build the date; `none` means "continue". -/
def tryDatePattern (i : Nat) (v : String) : Option PyDate :=
  match i with
  | 0 => (reSearch matchP1At v.data).bind (buildDate true)
  | 1 => (reSearch matchP2At v.data).bind (buildDate false)
  | _ => (reSearch matchP3At v.data).bind (buildDate false)

/-- Result of `DocumentInfo.parse_date` on a string input: either a parsed
date, or the original value passed through unchanged. -/
inductive DateResult where
  | parsed (d : PyDate) : DateResult
  | unchanged (s : String) : DateResult
deriving DecidableEq, Repr

/-- `DocumentInfo.parse_date` on a string: the three patterns are tried in
order; a pattern that matches and whose date construction succeeds returns
that date; a failed construction (or no match) continues with the next
pattern; if the loop finishes, the original value is returned unchanged. -/
def parse_date (v : String) : DateResult :=
  match tryDatePattern 0 v with
  | some d => .parsed d
  | none =>
    match tryDatePattern 1 v with
    | some d => .parsed d
    | none =>
      match tryDatePattern 2 v with
      | some d => .parsed d
      | none => .unchanged v

/-! ### `ContactInfo.clean_phone` -/

/-- The character class `[\d+\-\(\)\s]` kept by `clean_phone`. -/
def phoneKeep (c : Char) : Bool :=
  c.isDigit || c == '+' || c == '-' || c == '(' || c == ')' || isPySpace c

/-- `ContactInfo.clean_phone`: a truthy (non-`None`, non-empty) value has every
character outside `phoneKeep` removed and is then stripped; `None` and the
empty string pass through unchanged. -/
def clean_phone (v : Option String) : Option String :=
  match v with
  | none => none
  | some s =>
    if s = "" then some s
    else some ⟨pyStrip (s.data.filter phoneKeep)⟩

/-! ### The document model and flattening

Validated field values (what the pydantic model stores after construction):
strings stay strings, prices/amounts are `Option Rat`, dates are
`Option PyDate`, `quantity` is an `Option Rat` (Python `int`/`float`),
`processed_at` is an opaque timestamp. -/

structure ContactInfo where
  name : Option String := none
  email : Option String := none
  phone : Option String := none
  address : Option String := none
  city : Option String := none
  state : Option String := none
  postal_code : Option String := none
  country : Option String := none
deriving DecidableEq, Repr

structure LineItem where
  item_name : Option String := none
  quantity : Option Rat := none
  unit_price : Option Rat := none
  total_price : Option Rat := none
  item_code : Option String := none
  category : Option String := none
deriving DecidableEq, Repr

structure TaxInfo where
  tax_rate : Option Rat := none
  tax_amount : Option Rat := none
  tax_type : Option String := none
deriving DecidableEq, Repr

structure PaymentInfo where
  payment_method : Option String := none
  payment_terms : Option String := none
  due_date : Option PyDate := none
  paid_amount : Option Rat := none
  balance_due : Option Rat := none
deriving DecidableEq, Repr

structure DocumentInfo where
  document_type : Option String := none
  document_number : Option String := none
  document_date : Option PyDate := none
  reference_number : Option String := none
deriving DecidableEq, Repr

structure StructuredDocument where
  document_info : DocumentInfo := {}
  vendor : ContactInfo := {}
  customer : ContactInfo := {}
  line_items : List LineItem := []
  subtotal : Option Rat := none
  tax_info : TaxInfo := {}
  total_amount : Option Rat := none
  payment_info : PaymentInfo := {}
  notes : Option String := none
  currency : Option String := some "USD"
  source_filename : Option String := none
  processed_at : Option Nat := none
  confidence_score : Option Rat := none
deriving DecidableEq, Repr

/-- A value stored in an exported (CSV-bound) mapping. -/
inductive Value where
  | vnone : Value
  | vstr (s : String) : Value
  | vnum (q : Rat) : Value
  | vdate (d : PyDate) : Value
  | vtime (t : Nat) : Value
deriving DecidableEq, Repr

/-- Export an optional string as itself (Python `None` → blank). -/
def ofStr : Option String → Value
  | none => .vnone
  | some s => .vstr s

/-- Export an optional number unchanged (no falsy coercion). -/
def ofNum : Option Rat → Value
  | none => .vnone
  | some q => .vnum q

/-- Export an optional date unchanged. -/
def ofDate : Option PyDate → Value
  | none => .vnone
  | some d => .vdate d

/-- Export an optional timestamp unchanged. -/
def ofTime : Option Nat → Value
  | none => .vnone
  | some t => .vtime t

/-- `float(x) if x else None`: `None` and a decimal equal to zero both export
as blank; any other decimal exports as its numeric value. -/
def floatIfTruthy : Option Rat → Value
  | none => .vnone
  | some q => if q = 0 then .vnone else .vnum q

/-- Exported mappings are insertion-ordered key/value lists, like Python
dicts. -/
abbrev Row := List (String × Value)

/-- The keys of a row, in insertion order. -/
def rowKeys (d : Row) : List String := d.map Prod.fst

/-- `d[k]`: the value at the first occurrence of key `k`. -/
def dlookup (d : Row) (k : String) : Option Value :=
  match d with
  | [] => none
  | (a, v) :: t => if a = k then some v else dlookup t k

/-- Python `dict.update`: existing keys are overwritten in place, new keys are
appended at the end in update order. -/
def dictUpdate (d u : Row) : Row :=
  (d.map fun kv =>
    match dlookup u kv.1 with
    | some v => (kv.1, v)
    | none => kv)
  ++ u.filter fun kv => (dlookup d kv.1).isNone

/-- `StructuredDocument.to_flat_dict`, key for key in source order. -/
def to_flat_dict (doc : StructuredDocument) : Row :=
  [("document_type", ofStr doc.document_info.document_type),
   ("document_number", ofStr doc.document_info.document_number),
   ("document_date", ofDate doc.document_info.document_date),
   ("reference_number", ofStr doc.document_info.reference_number),
   ("vendor_name", ofStr doc.vendor.name),
   ("vendor_email", ofStr doc.vendor.email),
   ("vendor_phone", ofStr doc.vendor.phone),
   ("vendor_address", ofStr doc.vendor.address),
   ("vendor_city", ofStr doc.vendor.city),
   ("vendor_state", ofStr doc.vendor.state),
   ("vendor_postal_code", ofStr doc.vendor.postal_code),
   ("vendor_country", ofStr doc.vendor.country),
   ("customer_name", ofStr doc.customer.name),
   ("customer_email", ofStr doc.customer.email),
   ("customer_phone", ofStr doc.customer.phone),
   ("customer_address", ofStr doc.customer.address),
   ("customer_city", ofStr doc.customer.city),
   ("customer_state", ofStr doc.customer.state),
   ("customer_postal_code", ofStr doc.customer.postal_code),
   ("customer_country", ofStr doc.customer.country),
   ("subtotal", floatIfTruthy doc.subtotal),
   ("tax_rate", ofNum doc.tax_info.tax_rate),
   ("tax_amount", floatIfTruthy doc.tax_info.tax_amount),
   ("tax_type", ofStr doc.tax_info.tax_type),
   ("total_amount", floatIfTruthy doc.total_amount),
   ("currency", ofStr doc.currency),
   ("payment_method", ofStr doc.payment_info.payment_method),
   ("payment_terms", ofStr doc.payment_info.payment_terms),
   ("due_date", ofDate doc.payment_info.due_date),
   ("paid_amount", floatIfTruthy doc.payment_info.paid_amount),
   ("balance_due", floatIfTruthy doc.payment_info.balance_due),
   ("notes", ofStr doc.notes),
   ("source_filename", ofStr doc.source_filename),
   ("processed_at", ofTime doc.processed_at),
   ("confidence_score", ofNum doc.confidence_score)]
  ++ match doc.line_items with
     | [] =>
       [("item_name", .vnone),
        ("quantity", .vnone),
        ("unit_price", .vnone),
        ("item_total_price", .vnone),
        ("item_code", .vnone),
        ("item_category", .vnone),
        ("total_line_items", .vnum 0)]
     | first :: _ =>
       [("item_name", ofStr first.item_name),
        ("quantity", ofNum first.quantity),
        ("unit_price", floatIfTruthy first.unit_price),
        ("item_total_price", floatIfTruthy first.total_price),
        ("item_code", ofStr first.item_code),
        ("item_category", ofStr first.category),
        ("total_line_items", .vnum (mkRat doc.line_items.length 1))]

/-- One row of `to_line_items_list`: the flat dict updated with the fields of
line item `item` at 0-based position `i`. -/
def mkRow (doc : StructuredDocument) (i : Nat) (item : LineItem) : Row :=
  dictUpdate (to_flat_dict doc)
    [("item_name", ofStr item.item_name),
     ("quantity", ofNum item.quantity),
     ("unit_price", floatIfTruthy item.unit_price),
     ("item_total_price", floatIfTruthy item.total_price),
     ("item_code", ofStr item.item_code),
     ("item_category", ofStr item.category),
     ("line_item_number", .vnum (mkRat (i + 1) 1))]

/-- The `for i, item in enumerate(self.line_items)` loop, starting at index
`i`. -/
def rowsFrom (doc : StructuredDocument) : Nat → List LineItem → List Row
  | _, [] => []
  | i, item :: rest => mkRow doc i item :: rowsFrom doc (i + 1) rest

/-- `StructuredDocument.to_line_items_list`. -/
def to_line_items_list (doc : StructuredDocument) : List Row :=
  match doc.line_items with
  | [] => [to_flat_dict doc]
  | _ :: _ => rowsFrom doc 0 doc.line_items

/-- The fixed key list of `to_flat_dict`, identical in both of its branches. -/
def flatKeys : List String :=
  ["document_type", "document_number", "document_date", "reference_number",
   "vendor_name", "vendor_email", "vendor_phone", "vendor_address",
   "vendor_city", "vendor_state", "vendor_postal_code", "vendor_country",
   "customer_name", "customer_email", "customer_phone", "customer_address",
   "customer_city", "customer_state", "customer_postal_code", "customer_country",
   "subtotal", "tax_rate", "tax_amount", "tax_type", "total_amount", "currency",
   "payment_method", "payment_terms", "due_date", "paid_amount", "balance_due",
   "notes", "source_filename", "processed_at", "confidence_score",
   "item_name", "quantity", "unit_price", "item_total_price", "item_code",
   "item_category", "total_line_items"]

/-- The keys overwritten or added by a `to_line_items_list` row update. -/
def itemUpdKeys : List String :=
  ["item_name", "quantity", "unit_price", "item_total_price", "item_code",
   "item_category", "line_item_number"]

/-! ### Dictionary lemmas -/

theorem dlookup_append (d1 d2 : Row) (k : String) :
    dlookup (d1 ++ d2) k =
      match dlookup d1 k with
      | some v => some v
      | none => dlookup d2 k := by
  induction d1 with
  | nil => rfl
  | cons a t ih =>
    obtain ⟨a1, a2⟩ := a
    by_cases h : a1 = k
    · simp [dlookup, h]
    · simpa [dlookup, h] using ih

theorem dlookup_map_upd (d u : Row) (k : String) :
    dlookup (d.map fun kv =>
        match dlookup u kv.1 with
        | some v => (kv.1, v)
        | none => kv) k =
      match dlookup d k with
      | some v => some ((dlookup u k).getD v)
      | none => none := by
  induction d with
  | nil => rfl
  | cons a t ih =>
    obtain ⟨a1, a2⟩ := a
    by_cases h : a1 = k
    · subst h
      cases hu : dlookup u a1 <;> simp [dlookup, hu]
    · cases hu : dlookup u a1 <;> simpa [dlookup, h, hu] using ih

theorem dlookup_filter_out (d u : Row) (k : String) :
    dlookup (u.filter fun kv => (dlookup d kv.1).isNone) k =
      match dlookup d k with
      | some _ => none
      | none => dlookup u k := by
  induction u with
  | nil => cases hd : dlookup d k <;> simp [dlookup]
  | cons a t ih =>
    obtain ⟨a1, a2⟩ := a
    by_cases h : a1 = k
    · subst h
      cases hd : dlookup d a1 <;>
        simp [dlookup, List.filter_cons, hd, ih]
    · cases hd : dlookup d a1 <;>
        cases hdk : dlookup d k <;>
        simp only [List.filter_cons, hd, Option.isNone_some, Option.isNone_none,
          if_true, if_false, dlookup, h, hdk] <;>
        simpa [hdk] using ih

/-- Lookup in a Python `dict.update`: the update wins on its keys, the base
dict answers everywhere else. -/
theorem dlookup_dictUpdate (d u : Row) (k : String) :
    dlookup (dictUpdate d u) k =
      match dlookup u k with
      | some v => some v
      | none => dlookup d k := by
  unfold dictUpdate
  rw [dlookup_append, dlookup_map_upd, dlookup_filter_out]
  cases hd : dlookup d k <;> cases hu : dlookup u k <;> simp

theorem dlookup_eq_none_of_not_mem (u : Row) (k : String)
    (h : k ∉ rowKeys u) : dlookup u k = none := by
  induction u with
  | nil => rfl
  | cons a t ih =>
    obtain ⟨a1, a2⟩ := a
    simp only [rowKeys, List.map_cons, List.mem_cons, not_or] at h
    simpa [dlookup, Ne.symm h.1] using ih (by simpa [rowKeys] using h.2)

theorem rowKeys_dictUpdate (d u : Row) :
    rowKeys (dictUpdate d u) =
      rowKeys d ++ rowKeys (u.filter fun kv => (dlookup d kv.1).isNone) := by
  unfold dictUpdate rowKeys
  rw [List.map_append]
  congr 1
  induction d with
  | nil => rfl
  | cons a t ih =>
    cases hu : dlookup u a.1 <;> simpa [hu] using ih

/-! ### Shape lemmas for the flattening functions -/

theorem rowKeys_to_flat_dict (doc : StructuredDocument) :
    rowKeys (to_flat_dict doc) = flatKeys := by
  cases h : doc.line_items <;> (unfold to_flat_dict; rw [h]) <;> rfl

theorem rowKeys_mkRow (doc : StructuredDocument) (i : Nat) (item : LineItem) :
    rowKeys (mkRow doc i item) = flatKeys ++ ["line_item_number"] := by
  cases h : doc.line_items <;> (unfold mkRow dictUpdate to_flat_dict; rw [h]) <;> rfl

theorem rowsFrom_length (doc : StructuredDocument) (i : Nat)
    (items : List LineItem) : (rowsFrom doc i items).length = items.length := by
  induction items generalizing i with
  | nil => rfl
  | cons a t ih => simpa [rowsFrom] using ih (i + 1)

theorem rowsFrom_getElem? (doc : StructuredDocument) (i : Nat)
    (items : List LineItem) (j : Nat) :
    (rowsFrom doc i items)[j]? = (items[j]?).map fun item => mkRow doc (i + j) item := by
  induction items generalizing i j with
  | nil => simp [rowsFrom]
  | cons a t ih =>
    cases j with
    | zero => simp [rowsFrom]
    | succ j =>
      simpa [rowsFrom, Nat.add_assoc, Nat.add_comm 1 j] using ih (i + 1) j

theorem mem_rowsFrom (doc : StructuredDocument) (i : Nat)
    (items : List LineItem) (r : Row) (h : r ∈ rowsFrom doc i items) :
    ∃ j item, item ∈ items ∧ r = mkRow doc j item := by
  induction items generalizing i with
  | nil => simp [rowsFrom] at h
  | cons a t ih =>
    simp only [rowsFrom, List.mem_cons] at h
    rcases h with h | h
    · exact ⟨i, a, List.mem_cons_self a t, h⟩
    · obtain ⟨j, item, hm, hr⟩ := ih (i + 1) h
      exact ⟨j, item, List.mem_cons_of_mem a hm, hr⟩

/-- Lookup of the document-level amount fields in the flat dict: they carry
the falsy-coerced decimal, independent of the line-item branch. -/
theorem dlookup_to_flat_dict_amounts (doc : StructuredDocument) :
    dlookup (to_flat_dict doc) "subtotal" = some (floatIfTruthy doc.subtotal) ∧
    dlookup (to_flat_dict doc) "tax_amount" = some (floatIfTruthy doc.tax_info.tax_amount) ∧
    dlookup (to_flat_dict doc) "total_amount" = some (floatIfTruthy doc.total_amount) ∧
    dlookup (to_flat_dict doc) "paid_amount" = some (floatIfTruthy doc.payment_info.paid_amount) ∧
    dlookup (to_flat_dict doc) "balance_due" = some (floatIfTruthy doc.payment_info.balance_due) :=
  ⟨rfl, rfl, rfl, rfl, rfl⟩

/-- Lookup of the first-item fields in the flat dict of a document with at
least one line item. -/
theorem dlookup_to_flat_dict_cons (doc : StructuredDocument) (item : LineItem)
    (rest : List LineItem) (h : doc.line_items = item :: rest) :
    dlookup (to_flat_dict doc) "quantity" = some (ofNum item.quantity) ∧
    dlookup (to_flat_dict doc) "unit_price" = some (floatIfTruthy item.unit_price) ∧
    dlookup (to_flat_dict doc) "item_total_price" = some (floatIfTruthy item.total_price) := by
  unfold to_flat_dict
  rw [h]
  exact ⟨rfl, rfl, rfl⟩

/-- Lookup in a `to_line_items_list` row: the seven updated keys answer from
the item, everything else from the flat dict. -/
theorem dlookup_mkRow (doc : StructuredDocument) (i : Nat) (item : LineItem)
    (k : String) :
    dlookup (mkRow doc i item) k =
      match dlookup
          [("item_name", ofStr item.item_name),
           ("quantity", ofNum item.quantity),
           ("unit_price", floatIfTruthy item.unit_price),
           ("item_total_price", floatIfTruthy item.total_price),
           ("item_code", ofStr item.item_code),
           ("item_category", ofStr item.category),
           ("line_item_number", .vnum (mkRat (i + 1) 1))] k with
      | some v => some v
      | none => dlookup (to_flat_dict doc) k :=
  dlookup_dictUpdate _ _ k

/-! ### Sample documents used as concrete inputs -/

/-- A document with zero line items and every optional field defaulted. -/
def docNoItems : StructuredDocument := {}

def sampleItem : LineItem :=
  { item_name := some "pen", quantity := some (mkRat 2 1),
    unit_price := some (mkRat 3 2), total_price := some (mkRat 3 1),
    item_code := some "P-1", category := some "stationery" }

def sampleItem2 : LineItem :=
  { item_name := some "pad", quantity := some (mkRat 1 1) }

def docOneItem : StructuredDocument := { line_items := [sampleItem] }

def docTwoItems : StructuredDocument := { line_items := [sampleItem, sampleItem2] }

/-- A line item whose numeric fields are all exactly zero. -/
def zeroItem : LineItem :=
  { quantity := some 0, unit_price := some 0, total_price := some 0 }

/-- A document whose amount fields are all exactly zero. -/
def docZeros : StructuredDocument :=
  { line_items := [zeroItem], subtotal := some 0, total_amount := some 0,
    tax_info := { tax_amount := some 0 },
    payment_info := { paid_amount := some 0, balance_due := some 0 } }

/-! ### Claim theorems -/

/-- C1: the claim says constructing an Entity Record from a mapping with a
malformed value for a price-like field never raises and stores absence.  The
code violates this: when every character of the value is outside the kept
class `digits . , -` (e.g. `unit_price: "ask cashier"`), the cleaned string is
empty, the validator falls through to `return v`, and pydantic's decimal
coercion of the raw string raises a validation error.  A malformed value whose
cleaned string is non-empty (e.g. `"abc-def"`) does degrade to absence. -/
theorem c1_unparsable_price_construction :
    validate_price_field (.rstr "ask cashier") = .error () ∧
    validate_price_field (.rstr "N/A") = .error () ∧
    validate_price_field (.rstr "abc-def") = .ok none :=
  ⟨rfl, rfl, rfl⟩

/-- C2: of the four reference examples for the date parser, only the first
holds on the code.  `"2024-03-15"` matches the second pattern, but the loop
body derives the year from `groups[2]` (the day `"15"`, two characters, so
year 2015) and returns `date(2015, 3, 15)`.  `"03/15/24"` and `"03/15/76"`
match the third pattern, whose `date(year, groups[1], groups[2])` call uses
month 15 and raises, so the original text is passed through unchanged. -/
theorem c2_parse_date_reference_examples :
    parse_date "03/15/2024" = .parsed ⟨2024, 3, 15⟩ ∧
    parse_date "2024-03-15" = .parsed ⟨2015, 3, 15⟩ ∧
    parse_date "03/15/24" = .unchanged "03/15/24" ∧
    parse_date "03/15/76" = .unchanged "03/15/76" :=
  ⟨rfl, rfl, rfl, rfl⟩

/-- C3: the three currency examples with extraneous symbols parse to the
claimed decimals (1234.56, 1234.56, -12), but for `"N/A"` and `""` — where the
cleaned string is empty — the validator returns the original string unchanged
instead of absence (and field validation subsequently raises, see C1). -/
theorem c3_parse_currency_examples :
    parse_price (.rstr "$1,234.56") = .rdec (mkRat 123456 100) ∧
    parse_price (.rstr "USD 1234.56") = .rdec (mkRat 123456 100) ∧
    parse_price (.rstr "  - 12.00 ") = .rdec (-12) ∧
    parse_price (.rstr "N/A") = .rstr "N/A" ∧
    parse_price (.rstr "") = .rstr "" :=
  ⟨rfl, rfl, rfl, rfl, rfl⟩

/-- C4 counterexample: the first pattern to match a substring does NOT always
determine the result.  Both inputs below have the identical first-pattern
match `("99", "99", "2024")`, yet they parse to different dates: the first
pattern's date construction raises (month 99), and the second pattern — whose
matches differ — determines the result. -/
theorem c4_first_match_not_deterministic :
    ¬ ∀ v1 v2 : String,
        (reSearch matchP1At v1.data).isSome = true →
        reSearch matchP1At v1.data = reSearch matchP1At v2.data →
        parse_date v1 = parse_date v2 := by
  intro h
  have h1 := h "99-99-2024 2024-03-04" "99-99-2024 2024-05-06" rfl rfl
  rw [show parse_date "99-99-2024 2024-03-04" = .parsed ⟨2004, 3, 4⟩ from rfl,
      show parse_date "99-99-2024 2024-05-06" = .parsed ⟨2006, 5, 6⟩ from rfl] at h1
  exact absurd h1 (by decide)

/-- C4 amended: the three patterns are tried in the fixed order; the first
pattern that matches AND whose matched groups build a valid calendar date
determines the result (a matching pattern whose date construction raises is
skipped); if no pattern yields a date, the original text is passed through
unchanged rather than raising. -/
theorem c4_first_successful_pattern_determines (v : String) :
    (∀ d, tryDatePattern 0 v = some d → parse_date v = .parsed d) ∧
    (∀ d, tryDatePattern 0 v = none → tryDatePattern 1 v = some d →
      parse_date v = .parsed d) ∧
    (∀ d, tryDatePattern 0 v = none → tryDatePattern 1 v = none →
      tryDatePattern 2 v = some d → parse_date v = .parsed d) ∧
    (tryDatePattern 0 v = none → tryDatePattern 1 v = none →
      tryDatePattern 2 v = none → parse_date v = .unchanged v) := by
  refine ⟨fun d h0 => ?_, fun d h0 h1 => ?_, fun d h0 h1 h2 => ?_,
    fun h0 h1 h2 => ?_⟩ <;>
    simp [parse_date, h0]
  · simp [h1]
  · simp [h1, h2]
  · simp [h1, h2]

/-- C4 witness: at `"2024-03-15"` the first pattern finds nothing, the second
succeeds, and its date is the overall result. -/
theorem c4_first_successful_pattern_determines_witness :
    parse_date "2024-03-15" = .parsed ⟨2015, 3, 15⟩ :=
  (c4_first_successful_pattern_determines "2024-03-15").2.1 ⟨2015, 3, 15⟩ rfl rfl

/-- C5 counterexample: rows do NOT have the same key set across all documents.
The single row of a zero-item document lacks the key `line_item_number`, which
every row of a document with at least one line item has. -/
theorem c5_column_mismatch_zero_vs_one_item :
    (to_line_items_list docNoItems).length = 1 ∧
    (to_line_items_list docOneItem).length = 1 ∧
    "line_item_number" ∈ rowKeys ((to_line_items_list docOneItem).headD []) ∧
    "line_item_number" ∉ rowKeys ((to_line_items_list docNoItems).headD []) := by
  refine ⟨rfl, rfl, by decide, by decide⟩

/-- C5 amended: every row of `to_line_items_list` of a document with at least
one line item has the key list `flatKeys ++ [line_item_number]`; the single
row of a zero-item document has exactly `flatKeys` (no `line_item_number`).
In particular all documents with ≥ 1 items produce uniform columns, but a
zero-item document's row has a different key set. -/
theorem c5_row_keys_uniform (doc : StructuredDocument) (r : Row)
    (hr : r ∈ to_line_items_list doc) :
    rowKeys r = if doc.line_items.isEmpty then flatKeys
                else flatKeys ++ ["line_item_number"] := by
  cases h : doc.line_items with
  | nil =>
    unfold to_line_items_list at hr
    rw [h] at hr
    simp only [List.mem_singleton] at hr
    subst hr
    simp [h, rowKeys_to_flat_dict]
  | cons a t =>
    unfold to_line_items_list at hr
    rw [h] at hr
    obtain ⟨j, item, _, rfl⟩ := mem_rowsFrom doc 0 (a :: t) r hr
    simp [h, rowKeys_mkRow]

/-- C5 witness: the key list of the only row of `docOneItem`. -/
theorem c5_row_keys_uniform_witness :
    rowKeys ((to_line_items_list docOneItem).headD []) =
      flatKeys ++ ["line_item_number"] := by
  have h := c5_row_keys_uniform docOneItem
    ((to_line_items_list docOneItem).headD []) (by decide)
  simpa [docOneItem] using h

/-- C6: a document-level amount of exactly zero (subtotal, tax_amount,
total_amount, paid_amount, balance_due) — and likewise a zero unit_price or
total_price on the exported first line item — is flattened to absence, not to
the number 0, because of the `float(x) if x else None` falsy coercion. -/
theorem c6_zero_decimals_export_blank (doc : StructuredDocument) :
    (doc.subtotal = some 0 →
      dlookup (to_flat_dict doc) "subtotal" = some .vnone) ∧
    (doc.tax_info.tax_amount = some 0 →
      dlookup (to_flat_dict doc) "tax_amount" = some .vnone) ∧
    (doc.total_amount = some 0 →
      dlookup (to_flat_dict doc) "total_amount" = some .vnone) ∧
    (doc.payment_info.paid_amount = some 0 →
      dlookup (to_flat_dict doc) "paid_amount" = some .vnone) ∧
    (doc.payment_info.balance_due = some 0 →
      dlookup (to_flat_dict doc) "balance_due" = some .vnone) ∧
    (∀ item rest, doc.line_items = item :: rest →
      (item.unit_price = some 0 →
        dlookup (to_flat_dict doc) "unit_price" = some .vnone) ∧
      (item.total_price = some 0 →
        dlookup (to_flat_dict doc) "item_total_price" = some .vnone)) := by
  obtain ⟨h1, h2, h3, h4, h5⟩ := dlookup_to_flat_dict_amounts doc
  refine ⟨fun h => ?_, fun h => ?_, fun h => ?_, fun h => ?_, fun h => ?_,
    fun item rest hc => ?_⟩
  · rw [h1, h]; rfl
  · rw [h2, h]; rfl
  · rw [h3, h]; rfl
  · rw [h4, h]; rfl
  · rw [h5, h]; rfl
  · obtain ⟨_, hu, ht⟩ := dlookup_to_flat_dict_cons doc item rest hc
    exact ⟨fun h => by rw [hu, h]; rfl, fun h => by rw [ht, h]; rfl⟩

/-- C6 witness: on `docZeros` every zero amount exports as blank. -/
theorem c6_zero_decimals_export_blank_witness :
    dlookup (to_flat_dict docZeros) "subtotal" = some .vnone ∧
    dlookup (to_flat_dict docZeros) "unit_price" = some .vnone :=
  ⟨(c6_zero_decimals_export_blank docZeros).1 rfl,
   ((c6_zero_decimals_export_blank docZeros).2.2.2.2.2 zeroItem [] rfl).1 rfl⟩

/-- C7: a document with N ≥ 1 line items yields exactly N rows; row j
(0-based) carries `line_item_number` j+1 and the six item fields of the j-th
line item, and agrees with the flat dict — hence with every other row — on
every key outside the seven updated ones. -/
theorem c7_rows_per_line_item (doc : StructuredDocument)
    (hne : doc.line_items ≠ []) :
    (to_line_items_list doc).length = doc.line_items.length ∧
    ∀ (j : Nat) (item : LineItem), doc.line_items[j]? = some item →
      ∃ row, (to_line_items_list doc)[j]? = some row ∧
        dlookup row "line_item_number" = some (.vnum (mkRat (j + 1) 1)) ∧
        dlookup row "item_name" = some (ofStr item.item_name) ∧
        dlookup row "quantity" = some (ofNum item.quantity) ∧
        dlookup row "unit_price" = some (floatIfTruthy item.unit_price) ∧
        dlookup row "item_total_price" = some (floatIfTruthy item.total_price) ∧
        dlookup row "item_code" = some (ofStr item.item_code) ∧
        dlookup row "item_category" = some (ofStr item.category) ∧
        ∀ k, k ∉ itemUpdKeys → dlookup row k = dlookup (to_flat_dict doc) k := by
  have hlist : to_line_items_list doc = rowsFrom doc 0 doc.line_items := by
    unfold to_line_items_list
    cases h : doc.line_items with
    | nil => exact absurd h hne
    | cons a t => rfl
  refine ⟨by rw [hlist, rowsFrom_length], fun j item hj => ?_⟩
  refine ⟨mkRow doc j item, ?_, ?_, ?_, ?_, ?_, ?_, ?_, ?_, fun k hk => ?_⟩
  · rw [hlist, rowsFrom_getElem?, hj]
    simp
  · rw [dlookup_mkRow]; rfl
  · rw [dlookup_mkRow]; rfl
  · rw [dlookup_mkRow]; rfl
  · rw [dlookup_mkRow]; rfl
  · rw [dlookup_mkRow]; rfl
  · rw [dlookup_mkRow]; rfl
  · rw [dlookup_mkRow]; rfl
  · rw [dlookup_mkRow, dlookup_eq_none_of_not_mem _ k
      (by simpa [rowKeys, itemUpdKeys] using hk)]

/-- C7 witness: `docTwoItems` yields exactly two rows. -/
theorem c7_rows_per_line_item_witness :
    (to_line_items_list docTwoItems).length = 2 :=
  ((c7_rows_per_line_item docTwoItems (by decide)).1).trans rfl

/-- C8: a document with zero line items yields one row, equal to the flat
dict, in which the six item fields are absence and `total_line_items` is 0. -/
theorem c8_empty_line_items (doc : StructuredDocument)
    (h : doc.line_items = []) :
    to_line_items_list doc = [to_flat_dict doc] ∧
    dlookup (to_flat_dict doc) "item_name" = some .vnone ∧
    dlookup (to_flat_dict doc) "quantity" = some .vnone ∧
    dlookup (to_flat_dict doc) "unit_price" = some .vnone ∧
    dlookup (to_flat_dict doc) "item_total_price" = some .vnone ∧
    dlookup (to_flat_dict doc) "item_code" = some .vnone ∧
    dlookup (to_flat_dict doc) "item_category" = some .vnone ∧
    dlookup (to_flat_dict doc) "total_line_items" = some (.vnum 0) := by
  refine ⟨?_, ?_⟩
  · unfold to_line_items_list
    rw [h]
  · unfold to_flat_dict
    rw [h]
    exact ⟨rfl, rfl, rfl, rfl, rfl, rfl, rfl⟩

/-- C8 witness: the zero-item sample document. -/
theorem c8_empty_line_items_witness :
    to_line_items_list docNoItems = [to_flat_dict docNoItems] ∧
    dlookup (to_flat_dict docNoItems) "total_line_items" = some (.vnum 0) :=
  ⟨(c8_empty_line_items docNoItems rfl).1,
   (c8_empty_line_items docNoItems rfl).2.2.2.2.2.2.2⟩

/-! ### Facts about `pyStrip` for `clean_phone` -/

theorem dropWhile_sublist_self (p : Char → Bool) (l : List Char) :
    (l.dropWhile p).Sublist l := by
  induction l with
  | nil => exact List.Sublist.refl []
  | cons a t ih =>
    by_cases h : p a
    · simpa [List.dropWhile, h] using ih.cons a
    · simp [List.dropWhile, h]

theorem pyStrip_sublist (l : List Char) : (pyStrip l).Sublist l := by
  unfold pyStrip
  have h1 : ((l.dropWhile isPySpace).reverse.dropWhile isPySpace).Sublist
      (l.dropWhile isPySpace).reverse := dropWhile_sublist_self _ _
  have h2 := h1.reverse
  rw [List.reverse_reverse] at h2
  exact h2.trans (dropWhile_sublist_self _ _)

/-- The head of `dropWhile p` never satisfies `p`. -/
theorem head_dropWhile_not (p : Char → Bool) (l : List Char) :
    ∀ c ∈ (l.dropWhile p).head?, p c = false := by
  induction l with
  | nil => simp
  | cons a t ih =>
    by_cases h : p a
    · simpa [List.dropWhile_cons, h] using ih
    · simp [List.dropWhile_cons, h]

/-- A non-empty `dropWhile p` keeps the last element of the list. -/
theorem getLast_dropWhile_of_getLast (p : Char → Bool) (m : List Char)
    (hm : ∀ c ∈ m.getLast?, p c = false) :
    ∀ c ∈ (m.dropWhile p).getLast?, p c = false := by
  intro c hc
  have hne : m.dropWhile p ≠ [] := by
    intro hnil
    rw [hnil] at hc
    simp at hc
  have heq : (m.dropWhile p).getLast? = m.getLast? := by
    conv_rhs => rw [← List.takeWhile_append_dropWhile p m]
    rw [List.getLast?_append_of_ne_nil _ hne]
  rw [heq] at hc
  exact hm c hc

/-- `pyStrip` decomposes its input as whitespace, the result, whitespace —
and the result has no whitespace at either edge. -/
theorem pyStrip_trim_spec (l : List Char) :
    (∃ pre suf, l = pre ++ pyStrip l ++ suf ∧
       (∀ c ∈ pre, isPySpace c = true) ∧ (∀ c ∈ suf, isPySpace c = true)) ∧
    (∀ c ∈ (pyStrip l).head?, isPySpace c = false) ∧
    (∀ c ∈ (pyStrip l).getLast?, isPySpace c = false) := by
  refine ⟨⟨l.takeWhile isPySpace,
    ((l.dropWhile isPySpace).reverse.takeWhile isPySpace).reverse, ?_, ?_, ?_⟩,
    ?_, ?_⟩
  · have h2 : (l.dropWhile isPySpace).reverse.takeWhile isPySpace ++
        (l.dropWhile isPySpace).reverse.dropWhile isPySpace =
        (l.dropWhile isPySpace).reverse :=
      List.takeWhile_append_dropWhile isPySpace _
    have h3 : l.dropWhile isPySpace =
        pyStrip l ++ ((l.dropWhile isPySpace).reverse.takeWhile isPySpace).reverse := by
      conv_lhs => rw [← List.reverse_reverse (l.dropWhile isPySpace), ← h2]
      rw [List.reverse_append]
      rfl
    conv_lhs => rw [← List.takeWhile_append_dropWhile isPySpace l, h3]
    rw [List.append_assoc]
  · exact fun c hc => List.mem_takeWhile_imp hc
  · exact fun c hc => List.mem_takeWhile_imp (List.mem_reverse.mp hc)
  · have := getLast_dropWhile_of_getLast isPySpace (l.dropWhile isPySpace).reverse
      (by rw [List.getLast?_reverse]; exact head_dropWhile_not isPySpace l)
    simpa [pyStrip, List.head?_reverse] using this
  · have := head_dropWhile_not isPySpace (l.dropWhile isPySpace).reverse
    simpa [pyStrip, List.getLast?_reverse] using this

/-- C9: on any non-`None` phone value, `clean_phone` keeps only digits, `+`,
`-`, parentheses and whitespace (the result is a subsequence of the input all
of whose characters lie in that class), and trims leading/trailing whitespace:
the kept characters of the input decompose as whitespace / result /
whitespace, and the result itself starts and ends with non-whitespace.  On the
reference input `"+1 (555) 123-4567 ext.9"` the result is exactly
`"+1 (555) 123-4567 9"`, and an input with edge whitespace is trimmed. -/
theorem c9_clean_phone_keeps_class (v w : String)
    (h : clean_phone (some v) = some w) :
    (∀ c ∈ w.data, phoneKeep c = true) ∧
    w.data.Sublist v.data ∧
    (∃ pre suf, v.data.filter phoneKeep = pre ++ w.data ++ suf ∧
       (∀ c ∈ pre, isPySpace c = true) ∧ (∀ c ∈ suf, isPySpace c = true)) ∧
    (∀ c ∈ w.data.head?, isPySpace c = false) ∧
    (∀ c ∈ w.data.getLast?, isPySpace c = false) ∧
    (v = "+1 (555) 123-4567 ext.9" → w = "+1 (555) 123-4567 9") ∧
    (v = "  +1 (555) ext 9  " → w = "+1 (555)  9") := by
  simp only [clean_phone] at h
  by_cases hv : v = ""
  · rw [if_pos hv] at h
    replace h := Option.some.inj h
    subst h
    subst hv
    exact ⟨by simp, List.Sublist.refl _, ⟨[], [], by simp, by simp, by simp⟩,
      by simp, by simp, fun hveq => absurd hveq (by decide),
      fun hveq => absurd hveq (by decide)⟩
  · rw [if_neg hv] at h
    replace h := Option.some.inj h
    subst h
    obtain ⟨⟨pre, suf, hdec, hpre, hsuf⟩, hhead, hlast⟩ :=
      pyStrip_trim_spec (v.data.filter phoneKeep)
    refine ⟨fun c hc => ?_, ?_, ⟨pre, suf, hdec, hpre, hsuf⟩, hhead, hlast,
      fun hveq => ?_, fun hveq => ?_⟩
    · have hmem := (pyStrip_sublist _).subset hc
      exact (List.mem_filter.mp hmem).2
    · exact (pyStrip_sublist _).trans (List.filter_sublist _)
    · subst hveq
      rfl
    · subst hveq
      rfl

/-- C9 witness: the edge-whitespace input is cleaned to the trimmed,
letter-free string, a subsequence of the input. -/
theorem c9_clean_phone_keeps_class_witness :
    ("+1 (555)  9").data.Sublist ("  +1 (555) ext 9  ").data :=
  (c9_clean_phone_keeps_class "  +1 (555) ext 9  " "+1 (555)  9" rfl).2.1

/-- C10: a first line item with quantity exactly 0 is exported by
`to_flat_dict` as the number 0, not as absence — quantity is passed through
without the falsy coercion that the price fields receive (contrast the
unit_price conjunct). -/
theorem c10_quantity_zero_passthrough (doc : StructuredDocument)
    (item : LineItem) (rest : List LineItem) (hc : doc.line_items = item :: rest)
    (hq : item.quantity = some 0) :
    dlookup (to_flat_dict doc) "quantity" = some (.vnum 0) ∧
    (Value.vnum 0 ≠ Value.vnone) ∧
    (item.unit_price = some 0 →
      dlookup (to_flat_dict doc) "unit_price" = some .vnone) := by
  obtain ⟨hqv, hu, _⟩ := dlookup_to_flat_dict_cons doc item rest hc
  refine ⟨by rw [hqv, hq]; rfl, by decide, fun h => by rw [hu, h]; rfl⟩

/-- C10 witness: `docZeros` exports quantity 0 as the number 0. -/
theorem c10_quantity_zero_passthrough_witness :
    dlookup (to_flat_dict docZeros) "quantity" = some (.vnum 0) :=
  (c10_quantity_zero_passthrough docZeros zeroItem [] rfl rfl).1

end HandOCR
